import Mathlib

/-!
Shallow embedding of the customer-support AI service
(`src/schamas.py`, `src/services/gbt_service.py`).

Modelling conventions:
* A completion-API response body, after the attempted `json.loads`, is an
  `Option Json`: `none` models text that is not valid JSON (the
  `json.JSONDecodeError` branch), `some j` a successfully parsed value.
* Python exceptions are modelled with `Except PyErr`; the
  `except (json.JSONDecodeError, KeyError)` clauses catch exactly
  `jsonDecodeError` (the `none` case) and `keyError`.
* JSON numbers are modelled as rationals.
* Each `str(uuid.uuid4())` call is modelled by a string parameter `u`;
  the code only ever uses `str(uuid.uuid4())[:4].upper()`.
* pydantic field validation on construction is modelled by `Json.asStr`,
  `Json.asStrList` and `Json.asBool`, which fail with `validationError`
  when the supplied JSON value does not have the declared field type.
-/

set_option linter.unusedVariables false

/-- Python `s.lower()` (character-wise ASCII lower-casing). -/
def pyLower (s : String) : String := String.mk (s.data.map Char.toLower)

/-- Python `s.upper()` (character-wise ASCII upper-casing). -/
def pyUpper (s : String) : String := String.mk (s.data.map Char.toUpper)

/-- Python `s[:n]`. -/
def pySlice (s : String) (n : Nat) : String := String.mk (s.data.take n)

/-- Python exception classes that can escape or be caught in the service code.
`keyError` is `KeyError` (missing dict key), `typeError` is `TypeError`
(indexing or iterating a non-dict / non-iterable), `valueError` is the
`ValueError` raised by an enum constructor on an unknown value,
`validationError` is pydantic's `ValidationError`, `attrError` is
`AttributeError` (calling `.get` on a non-dict, or a missing attribute). -/
inductive PyErr where
  | keyError
  | typeError
  | valueError
  | validationError
  | attrError
deriving Repr, DecidableEq

/-- JSON values as produced by `json.loads`. -/
inductive Json where
  | null
  | bool (b : Bool)
  | num (q : ℚ)
  | str (s : String)
  | arr (items : List Json)
  | obj (fields : List (String × Json))

/-- Python subscript `j[k]`: a dict lookup. Missing key raises `KeyError`;
subscripting a non-dict value with a string raises `TypeError`. -/
def Json.index (j : Json) (k : String) : Except PyErr Json :=
  match j with
  | Json.obj fields =>
    match fields.lookup k with
    | some v => Except.ok v
    | none => Except.error PyErr.keyError
  | _ => Except.error PyErr.typeError

/-- Python `j.get(k, d)`: dict lookup with a default. On a non-dict value the
attribute `.get` does not exist, raising `AttributeError`. -/
def Json.get (j : Json) (k : String) (d : Json) : Except PyErr Json :=
  match j with
  | Json.obj fields => Except.ok ((fields.lookup k).getD d)
  | _ => Except.error PyErr.attrError

/-- pydantic validation of a `str` field. -/
def Json.asStr : Json → Except PyErr String
  | Json.str s => Except.ok s
  | _ => Except.error PyErr.validationError

/-- pydantic validation of a `list[str]` field. -/
def Json.asStrList : Json → Except PyErr (List String)
  | Json.arr items => strItems items
  | _ => Except.error PyErr.validationError
where
  strItems : List Json → Except PyErr (List String)
    | [] => Except.ok []
    | v :: rest =>
      match v.asStr with
      | Except.error e => Except.error e
      | Except.ok s =>
        match strItems rest with
        | Except.error e => Except.error e
        | Except.ok tail => Except.ok (s :: tail)

/-- pydantic validation of a `bool` field. -/
def Json.asBool : Json → Except PyErr Bool
  | Json.bool b => Except.ok b
  | _ => Except.error PyErr.validationError

/-- `CustomerMessageRequest` from `src/schamas.py`. -/
structure CustomerMessageRequest where
  customer_id : String
  message : String
  product : String

/-- `MessageType` enumeration from `src/schamas.py`. -/
inductive MessageType where
  | bug_report
  | feature_request
  | general_inquiry
deriving Repr, DecidableEq

/-- Python `MessageType(value)`: the enum constructor maps the three known
tag strings to enumeration members and raises `ValueError` on anything
else (including non-strings). -/
def MessageType.ofValue : Json → Except PyErr MessageType
  | Json.str s =>
    if s = "bug_report" then Except.ok MessageType.bug_report
    else if s = "feature_request" then Except.ok MessageType.feature_request
    else if s = "general_inquiry" then Except.ok MessageType.general_inquiry
    else Except.error PyErr.valueError
  | _ => Except.error PyErr.valueError

/-- `InquiryCategory` enumeration from `src/schamas.py`. -/
inductive InquiryCategory where
  | account_management
  | billing
  | usage_question
  | other
deriving Repr, DecidableEq

/-- Python `InquiryCategory(value)`: enum constructor, `ValueError` on an
unrecognized value. -/
def InquiryCategory.ofValue : Json → Except PyErr InquiryCategory
  | Json.str s =>
    if s = "Account Management" then Except.ok InquiryCategory.account_management
    else if s = "Billing" then Except.ok InquiryCategory.billing
    else if s = "Usage Question" then Except.ok InquiryCategory.usage_question
    else if s = "Other" then Except.ok InquiryCategory.other
    else Except.error PyErr.valueError
  | _ => Except.error PyErr.valueError

/-- `TicketModel` from `src/schamas.py`. -/
structure TicketModel where
  id : String
  title : String
  severity : String
  affected_components : List String
  reproduction_steps : List String
  priority : String
  assigned_team : String

/-- `TicketResponse` from `src/schamas.py`. -/
structure TicketResponse where
  ticket : TicketModel

/-- `ProductRequirementModel` from `src/schamas.py`. -/
structure ProductRequirementModel where
  id : String
  title : String
  description : String
  user_story : String
  business_value : String
  complexity_estimate : String
  affected_components : List String
  status : String

/-- `ProductRequirementResponse` from `src/schamas.py`. -/
structure ProductRequirementResponse where
  product_requirement : ProductRequirementModel

/-- `SuggestedResource` from `src/schamas.py`. -/
structure SuggestedResource where
  title : String
  url : String

/-- `GeneralInquiryResponse` from `src/schamas.py`. -/
structure GeneralInquiryResponse where
  inquiry_category : InquiryCategory
  requires_human_review : Bool
  suggested_resources : List SuggestedResource

/-- The `Union[TicketResponse, ProductRequirementResponse,
GeneralInquiryResponse]` value of `response_data`. -/
inductive ResponseData where
  | ticketResp (t : TicketResponse)
  | requirementResp (r : ProductRequirementResponse)
  | inquiryResp (g : GeneralInquiryResponse)

/-- Python attribute access `response_data.ticket`: succeeds only on a
`TicketResponse`, otherwise `AttributeError`. -/
def ResponseData.ticketAttr : ResponseData → Except PyErr TicketResponse
  | ResponseData.ticketResp t => Except.ok t
  | _ => Except.error PyErr.attrError

/-- Python attribute access `response_data.product_requirement`. -/
def ResponseData.requirementAttr : ResponseData → Except PyErr ProductRequirementResponse
  | ResponseData.requirementResp r => Except.ok r
  | _ => Except.error PyErr.attrError

/-- Python attribute access `response_data.requires_human_review` (and the
other inquiry attributes): succeeds only on a `GeneralInquiryResponse`. -/
def ResponseData.inquiryAttr : ResponseData → Except PyErr GeneralInquiryResponse
  | ResponseData.inquiryResp g => Except.ok g
  | _ => Except.error PyErr.attrError

/-- `MainResponse` from `src/schamas.py`. The `confidence_score` field keeps
the raw JSON value the classifier returned: the pydantic `float` field
carries no range constraint and accepts any number unmodified. -/
structure MainResponse where
  message_type : MessageType
  confidence_score : Json
  response_data : ResponseData
  customer_response : String

/-- True for the exception classes listed in the service's
`except (json.JSONDecodeError, KeyError)` clauses that can arise inside a
try block (`JSONDecodeError` itself is handled before the body runs, by the
`none` case of `tryParse`). -/
def caughtByParseFallback : PyErr → Bool
  | PyErr.keyError => true
  | _ => false

/-- The `try: data = json.loads(...) ... except (json.JSONDecodeError,
KeyError): return fallback` pattern shared by all four service methods.
`content = none` is the invalid-JSON case; a `keyError` escaping the body is
caught; every other exception propagates. -/
def tryParse {α : Type} (content : Option Json) (body : Json → Except PyErr α)
    (fallback : α) : Except PyErr α :=
  match content with
  | none => Except.ok fallback
  | some j =>
    match body j with
    | Except.ok x => Except.ok x
    | Except.error e =>
      if caughtByParseFallback e then Except.ok fallback else Except.error e

/-- Body of the try block of `_classify_message_type`:
`MessageType(result["classification"]), result["confidence_score"]`,
with Python's left-to-right evaluation order. -/
def classifyBody (result : Json) : Except PyErr (MessageType × Json) :=
  match result.index ("classification") with
  | Except.error e => Except.error e
  | Except.ok c =>
    match MessageType.ofValue c with
    | Except.error e => Except.error e
    | Except.ok mt =>
      match result.index ("confidence_score") with
      | Except.error e => Except.error e
      | Except.ok score => Except.ok (mt, score)

/-- `CustomerSupportAIService._classify_message_type`, as a function of the
(parsed) completion-API response body. -/
def _classify_message_type (content : Option Json) : Except PyErr (MessageType × Json) :=
  tryParse content classifyBody (MessageType.general_inquiry, Json.num (0.5 : ℚ))

/-- The fixed fallback ticket of `_generate_bug_report_data`, with the fresh
id built from the uuid string `u`. -/
def fallbackTicket (u : String) : TicketResponse :=
  { ticket :=
    { id := "BUG-" ++ pyUpper (pySlice u 4)
      title := "Bug Report"
      severity := "Medium"
      affected_components := ["General"]
      reproduction_steps := ["Steps to reproduce not specified"]
      priority := "Medium"
      assigned_team := "Support Team" } }

/-- Body of the try block of `_generate_bug_report_data`: the six
`data[...]` subscripts (evaluated left to right as constructor arguments),
then pydantic validation of the `TicketModel` fields. -/
def bugBody (u : String) (data : Json) : Except PyErr TicketResponse :=
  match data.index ("title") with
  | Except.error e => Except.error e
  | Except.ok titleV =>
  match data.index ("severity") with
  | Except.error e => Except.error e
  | Except.ok severityV =>
  match data.index ("affected_components") with
  | Except.error e => Except.error e
  | Except.ok componentsV =>
  match data.index ("reproduction_steps") with
  | Except.error e => Except.error e
  | Except.ok stepsV =>
  match data.index ("priority") with
  | Except.error e => Except.error e
  | Except.ok priorityV =>
  match data.index ("assigned_team") with
  | Except.error e => Except.error e
  | Except.ok teamV =>
  match titleV.asStr with
  | Except.error e => Except.error e
  | Except.ok titleS =>
  match severityV.asStr with
  | Except.error e => Except.error e
  | Except.ok severityS =>
  match componentsV.asStrList with
  | Except.error e => Except.error e
  | Except.ok componentsL =>
  match stepsV.asStrList with
  | Except.error e => Except.error e
  | Except.ok stepsL =>
  match priorityV.asStr with
  | Except.error e => Except.error e
  | Except.ok priorityS =>
  match teamV.asStr with
  | Except.error e => Except.error e
  | Except.ok teamS =>
    Except.ok
      { ticket :=
        { id := "BUG-" ++ pyUpper (pySlice u 4)
          title := titleS
          severity := severityS
          affected_components := componentsL
          reproduction_steps := stepsL
          priority := priorityS
          assigned_team := teamS } }

/-- `CustomerSupportAIService._generate_bug_report_data`, as a function of
the request, the parsed completion response and the uuid string. -/
def _generate_bug_report_data (req : CustomerMessageRequest)
    (content : Option Json) (u : String) : Except PyErr TicketResponse :=
  tryParse content (bugBody u) (fallbackTicket u)

/-- The fixed fallback requirement of `_generate_feature_request_data`. -/
def fallbackRequirement (u : String) : ProductRequirementResponse :=
  { product_requirement :=
    { id := "FR-" ++ pyUpper (pySlice u 4)
      title := "Feature Request"
      description := "New feature requested by customer"
      user_story := "As a user, I want this feature so that I can benefit from it"
      business_value := "Medium - Customer requested feature"
      complexity_estimate := "Medium"
      affected_components := ["General"]
      status := "Under Review" } }

/-- Body of the try block of `_generate_feature_request_data`. -/
def featureBody (u : String) (data : Json) : Except PyErr ProductRequirementResponse :=
  match data.index ("title") with
  | Except.error e => Except.error e
  | Except.ok titleV =>
  match data.index ("description") with
  | Except.error e => Except.error e
  | Except.ok descV =>
  match data.index ("user_story") with
  | Except.error e => Except.error e
  | Except.ok storyV =>
  match data.index ("business_value") with
  | Except.error e => Except.error e
  | Except.ok valueV =>
  match data.index ("complexity_estimate") with
  | Except.error e => Except.error e
  | Except.ok complexityV =>
  match data.index ("affected_components") with
  | Except.error e => Except.error e
  | Except.ok componentsV =>
  match titleV.asStr with
  | Except.error e => Except.error e
  | Except.ok titleS =>
  match descV.asStr with
  | Except.error e => Except.error e
  | Except.ok descS =>
  match storyV.asStr with
  | Except.error e => Except.error e
  | Except.ok storyS =>
  match valueV.asStr with
  | Except.error e => Except.error e
  | Except.ok valueS =>
  match complexityV.asStr with
  | Except.error e => Except.error e
  | Except.ok complexityS =>
  match componentsV.asStrList with
  | Except.error e => Except.error e
  | Except.ok componentsL =>
    Except.ok
      { product_requirement :=
        { id := "FR-" ++ pyUpper (pySlice u 4)
          title := titleS
          description := descS
          user_story := storyS
          business_value := valueS
          complexity_estimate := complexityS
          affected_components := componentsL
          status := "Under Review" } }

/-- `CustomerSupportAIService._generate_feature_request_data`. -/
def _generate_feature_request_data (req : CustomerMessageRequest)
    (content : Option Json) (u : String) : Except PyErr ProductRequirementResponse :=
  tryParse content (featureBody u) (fallbackRequirement u)

/-- The per-element work of the resource list comprehension:
`SuggestedResource(title=resource["title"], url=resource["url"])`
for each element, subscripts first, then pydantic validation. -/
def readResourceList : List Json → Except PyErr (List SuggestedResource)
  | [] => Except.ok []
  | r :: rest =>
    match r.index ("title") with
    | Except.error e => Except.error e
    | Except.ok titleV =>
    match r.index ("url") with
    | Except.error e => Except.error e
    | Except.ok urlV =>
    match titleV.asStr with
    | Except.error e => Except.error e
    | Except.ok titleS =>
    match urlV.asStr with
    | Except.error e => Except.error e
    | Except.ok urlS =>
    match readResourceList rest with
    | Except.error e => Except.error e
    | Except.ok tail => Except.ok ({ title := titleS, url := urlS } :: tail)

/-- Python iteration over the value of `data.get("suggested_resources", [])`:
a list is iterated elementwise; an empty string or empty dict iterates zero
times; iterating anything else either is a `TypeError` outright or yields
elements whose string subscript raises `TypeError` at the first element. -/
def readResources : Json → Except PyErr (List SuggestedResource)
  | Json.arr items => readResourceList items
  | Json.str s => if s = "" then Except.ok [] else Except.error PyErr.typeError
  | Json.obj [] => Except.ok []
  | _ => Except.error PyErr.typeError

/-- The fixed fallback record of `_generate_general_inquiry_data`. -/
def fallbackInquiry : GeneralInquiryResponse :=
  { inquiry_category := InquiryCategory.other
    requires_human_review := true
    suggested_resources := [{ title := "Help Center", url := "https://help.example.com" }] }

/-- Body of the try block of `_generate_general_inquiry_data`: the resource
comprehension runs first, then `InquiryCategory(data["category"])`, then
`data["requires_human_review"]`, then pydantic validation of the bool. -/
def inquiryBody (data : Json) : Except PyErr GeneralInquiryResponse :=
  match data.get ("suggested_resources") (Json.arr []) with
  | Except.error e => Except.error e
  | Except.ok resourcesV =>
  match readResources resourcesV with
  | Except.error e => Except.error e
  | Except.ok resources =>
  match data.index ("category") with
  | Except.error e => Except.error e
  | Except.ok categoryV =>
  match InquiryCategory.ofValue categoryV with
  | Except.error e => Except.error e
  | Except.ok category =>
  match data.index ("requires_human_review") with
  | Except.error e => Except.error e
  | Except.ok reviewV =>
  match reviewV.asBool with
  | Except.error e => Except.error e
  | Except.ok reviewB =>
    Except.ok
      { inquiry_category := category
        requires_human_review := reviewB
        suggested_resources := resources }

/-- `CustomerSupportAIService._generate_general_inquiry_data`. -/
def _generate_general_inquiry_data (req : CustomerMessageRequest)
    (content : Option Json) : Except PyErr GeneralInquiryResponse :=
  tryParse content inquiryBody fallbackInquiry

/-- `CustomerSupportAIService._generate_response_data`: dispatch on the
message type; `content` is the parsed body of whichever extraction call
runs, `u` the uuid string for that call. -/
def _generate_response_data (req : CustomerMessageRequest) (mt : MessageType)
    (content : Option Json) (u : String) : Except PyErr ResponseData :=
  match mt with
  | MessageType.bug_report =>
    match _generate_bug_report_data req content u with
    | Except.error e => Except.error e
    | Except.ok t => Except.ok (ResponseData.ticketResp t)
  | MessageType.feature_request =>
    match _generate_feature_request_data req content u with
    | Except.error e => Except.error e
    | Except.ok r => Except.ok (ResponseData.requirementResp r)
  | MessageType.general_inquiry =>
    match _generate_general_inquiry_data req content with
    | Except.error e => Except.error e
    | Except.ok g => Except.ok (ResponseData.inquiryResp g)

/-- `CustomerSupportAIService._generate_customer_response`: the pure
template composer. Attribute access on the wrong `response_data` variant
is an `AttributeError`, as in Python. -/
def _generate_customer_response (req : CustomerMessageRequest)
    (mt : MessageType) (rd : ResponseData) : Except PyErr String :=
  match mt with
  | MessageType.bug_report =>
    match rd.ticketAttr with
    | Except.error e => Except.error e
    | Except.ok tr =>
      Except.ok ("Thank you for reporting this issue. I\x27ve created a ticket (ID: "
        ++ tr.ticket.id ++ ") and assigned it to our " ++ tr.ticket.assigned_team
        ++ " team. They\x27ll investigate this " ++ pyLower tr.ticket.severity
        ++ " priority issue and get back to you soon. We appreciate you helping us improve our product!")
  | MessageType.feature_request =>
    match rd.requirementAttr with
    | Except.error e => Except.error e
    | Except.ok pr =>
      Except.ok ("Thank you for your feature request! I\x27ve logged this as requirement "
        ++ pr.product_requirement.id
        ++ " and our product team will review it. We value your input and will consider this "
        ++ pyLower pr.product_requirement.business_value
        ++ " business value feature for future updates. We\x27ll keep you updated on the progress.")
  | MessageType.general_inquiry =>
    match rd.inquiryAttr with
    | Except.error e => Except.error e
    | Except.ok inquiry =>
      if inquiry.requires_human_review then
        Except.ok ("Thank you for your inquiry about " ++ req.product
          ++ ". This requires personal attention, so I\x27ve escalated it to our support team. They\x27ll get back to you within 24 hours. In the meantime, you might find these resources helpful: "
          ++ String.intercalate (", ") (inquiry.suggested_resources.map SuggestedResource.title)
          ++ ".")
      else
        Except.ok ("Thank you for your question about " ++ req.product
          ++ "! I hope the information provided helps. If you need further assistance, don\x27t hesitate to reach out again.")

/-- `CustomerSupportAIService.classify_and_generate_response`: the three
stages in order, any uncaught exception propagating. `classifyContent` and
`extractContent` are the parsed bodies of the two completion calls that
actually run, `u` the uuid string of the extraction stage. -/
def classify_and_generate_response (req : CustomerMessageRequest)
    (classifyContent extractContent : Option Json) (u : String) :
    Except PyErr MainResponse :=
  match _classify_message_type classifyContent with
  | Except.error e => Except.error e
  | Except.ok (message_type, confidence_score) =>
    match _generate_response_data req message_type extractContent u with
    | Except.error e => Except.error e
    | Except.ok response_data =>
      match _generate_customer_response req message_type response_data with
      | Except.error e => Except.error e
      | Except.ok customer_response =>
        Except.ok
          { message_type := message_type
            confidence_score := confidence_score
            response_data := response_data
            customer_response := customer_response }

/-- Predicate of claim C3: the `response_data` variant structurally matches
the `message_type` tag. -/
def matchesType : MessageType → ResponseData → Bool
  | MessageType.bug_report, ResponseData.ticketResp _ => true
  | MessageType.feature_request, ResponseData.requirementResp _ => true
  | MessageType.general_inquiry, ResponseData.inquiryResp _ => true
  | _, _ => false

/-- A pipeline outcome satisfies the variant invariant: every envelope it
returns has matching tag and variant (a raised exception returns none). -/
def pipelineVariantOk (e : Except PyErr MainResponse) : Bool :=
  match e with
  | Except.ok r => matchesType r.message_type r.response_data
  | Except.error _ => true

/-- The string `s` contains `pat` as a contiguous substring. -/
def containsStr (s pat : String) : Prop := pat.data <:+: s.data

/-- The envelope's confidence score is a number in the closed interval
from 0 to 1. -/
def confidenceInUnit (r : MainResponse) : Prop :=
  ∃ q : ℚ, r.confidence_score = Json.num q ∧ 0 ≤ q ∧ q ≤ 1

/-- The classifier response either takes the fallback path or parses a
numeric confidence score inside the unit interval. -/
def classifierConfidenceAdmissible (cc : Option Json) : Prop :=
  ∀ mt s, _classify_message_type cc = Except.ok (mt, s) →
    ∃ v : ℚ, s = Json.num v ∧ 0 ≤ v ∧ v ≤ 1

/-- The parsed bug-report extraction object lacks at least one of the six
keys the code subscripts. -/
def lacksRequiredBugKey (fields : List (String × Json)) : Prop :=
  fields.lookup ("title") = none ∨
  fields.lookup ("severity") = none ∨
  fields.lookup ("affected_components") = none ∨
  fields.lookup ("reproduction_steps") = none ∨
  fields.lookup ("priority") = none ∨
  fields.lookup ("assigned_team") = none

/-- Hypothesis of claim C4: the bug-report extraction response is not valid
JSON, or parses to an object missing a required key. -/
def bugExtractionMalformed (content : Option Json) : Prop :=
  content = none ∨
  ∃ fields, content = some (Json.obj fields) ∧ lacksRequiredBugKey fields

theorem containsStr_trailing (a pat : String) : containsStr (a ++ pat) pat :=
  ⟨a.data, [], by simp [String.data_append]⟩

theorem containsStr_extend (a b pat : String) (h : containsStr a pat) :
    containsStr (a ++ b) pat := by
  obtain ⟨x, y, hxy⟩ := h
  exact ⟨x, y ++ b.data, by rw [String.data_append, ← hxy]; simp⟩

/-- C1: the classifier is claimed to return the fallback
`(general_inquiry, 0.5)` and never raise whenever the response is not valid
JSON, lacks a required key, or carries an unknown classification tag. The
first two cases do fall back, but an unknown tag makes
`MessageType(result["classification"])` raise a `ValueError` that the
`except (json.JSONDecodeError, KeyError)` clause does not catch. -/
theorem c1_unknown_classification_raises :
    _classify_message_type none
      = Except.ok (MessageType.general_inquiry, Json.num (0.5 : ℚ)) ∧
    _classify_message_type (some (Json.obj [("confidence_score", Json.num (0.9 : ℚ))]))
      = Except.ok (MessageType.general_inquiry, Json.num (0.5 : ℚ)) ∧
    _classify_message_type (some (Json.obj
        [("classification", Json.str ("spam")),
         ("confidence_score", Json.num (0.9 : ℚ))]))
      = Except.error PyErr.valueError :=
  ⟨rfl, rfl, rfl⟩

/-- C2: the general-inquiry extractor is claimed to return the fixed
fallback record and never raise when the response is malformed, including
when the category string is unrecognized. Invalid JSON does fall back, but
an unrecognized category makes `InquiryCategory(data["category"])` raise a
`ValueError` that the except clause does not catch. -/
theorem c2_unknown_category_raises :
    _generate_general_inquiry_data
        { customer_id := "c2", message := "hi", product := "App" }
        (some (Json.obj
          [("category", Json.str ("Spam")),
           ("requires_human_review", Json.bool true),
           ("suggested_resources", Json.arr [])]))
      = Except.error PyErr.valueError ∧
    _generate_general_inquiry_data
        { customer_id := "c2", message := "hi", product := "App" } none
      = Except.ok fallbackInquiry :=
  ⟨rfl, rfl⟩

/-- C8: the response composer is a pure function of the request, the
message type and the response data: repeated invocation on the same triple
returns the identical string. In this embedding purity is visible in the
signature itself, which takes no randomness or API handle, unlike the
extraction stages. -/
theorem c8_composer_deterministic (req : CustomerMessageRequest)
    (mt : MessageType) (rd : ResponseData) :
    _generate_customer_response req mt rd = _generate_customer_response req mt rd :=
  rfl

/-- C9: every bug-report composition cites the ticket id, the assigned
team, and the lower-cased severity; in particular the spec's scenario A
ticket (id "BUG-AB12", severity "High", team "Engineering") yields a
customer response containing "BUG-AB12", "Engineering" and "high". -/
theorem c9_bug_response_cites_ticket :
    (∀ (req : CustomerMessageRequest) (t : TicketModel),
      ∃ s, _generate_customer_response req MessageType.bug_report
          (ResponseData.ticketResp { ticket := t }) = Except.ok s ∧
        containsStr s t.id ∧ containsStr s t.assigned_team ∧
        containsStr s (pyLower t.severity)) ∧
    (∃ s, _generate_customer_response
        { customer_id := "c9", message := "The app crashes when I click save",
          product := "Editor" }
        MessageType.bug_report
        (ResponseData.ticketResp { ticket :=
          { id := "BUG-AB12", title := "Crash on save", severity := "High",
            affected_components := ["Editor"],
            reproduction_steps := ["Click save"],
            priority := "High", assigned_team := "Engineering" } })
        = Except.ok s ∧
      containsStr s ("BUG-AB12") ∧ containsStr s ("Engineering") ∧
      containsStr s ("high")) := by
  have gen : ∀ (req : CustomerMessageRequest) (t : TicketModel),
      ∃ s, _generate_customer_response req MessageType.bug_report
          (ResponseData.ticketResp { ticket := t }) = Except.ok s ∧
        containsStr s t.id ∧ containsStr s t.assigned_team ∧
        containsStr s (pyLower t.severity) := by
    intro req t
    refine ⟨_, rfl, ?_, ?_, ?_⟩
    · exact containsStr_extend _ _ _ (containsStr_extend _ _ _
        (containsStr_extend _ _ _ (containsStr_extend _ _ _
          (containsStr_extend _ _ _ (containsStr_trailing _ _)))))
    · exact containsStr_extend _ _ _ (containsStr_extend _ _ _
        (containsStr_extend _ _ _ (containsStr_trailing _ _)))
    · exact containsStr_extend _ _ _ (containsStr_trailing _ _)
  refine ⟨gen, ?_⟩
  obtain ⟨s, hs, h1, h2, h3⟩ := gen
    { customer_id := "c9", message := "The app crashes when I click save",
      product := "Editor" }
    { id := "BUG-AB12", title := "Crash on save", severity := "High",
      affected_components := ["Editor"], reproduction_steps := ["Click save"],
      priority := "High", assigned_team := "Engineering" }
  exact ⟨s, hs, h1, h2, h3⟩

theorem responseData_variant (req : CustomerMessageRequest) (mt : MessageType)
    (content : Option Json) (u : String) (rd : ResponseData)
    (h : _generate_response_data req mt content u = Except.ok rd) :
    matchesType mt rd = true := by
  cases mt <;> simp only [_generate_response_data] at h <;> split at h <;>
    first
      | exact Except.noConfusion h
      | (injection h with h; subst h; rfl)

/-- C3: whenever the orchestrator returns an envelope, the `response_data`
variant structurally matches `message_type`: bug_report carries a
`TicketResponse`, feature_request a `ProductRequirementResponse`,
general_inquiry a `GeneralInquiryResponse`. -/
theorem c3_response_variant_matches_message_type (req : CustomerMessageRequest)
    (cc ec : Option Json) (u : String) :
    pipelineVariantOk (classify_and_generate_response req cc ec u) = true := by
  cases h1 : _classify_message_type cc with
  | error e => simp [pipelineVariantOk, classify_and_generate_response, h1]
  | ok p =>
    obtain ⟨mt, conf⟩ := p
    cases h2 : _generate_response_data req mt ec u with
    | error e => simp [pipelineVariantOk, classify_and_generate_response, h1, h2]
    | ok rd =>
      cases h3 : _generate_customer_response req mt rd with
      | error e => simp [pipelineVariantOk, classify_and_generate_response, h1, h2, h3]
      | ok cr =>
        simp only [pipelineVariantOk, classify_and_generate_response, h1, h2, h3]
        exact responseData_variant req mt ec u rd h2

theorem bugBody_missing_key (u : String) (fields : List (String × Json))
    (h : lacksRequiredBugKey fields) :
    bugBody u (Json.obj fields) = Except.error PyErr.keyError := by
  unfold lacksRequiredBugKey at h
  unfold bugBody
  rcases h with h|h|h|h|h|h
  · simp [Json.index, h]
  · cases h1 : fields.lookup ("title") <;> simp [Json.index, h1, h]
  · cases h1 : fields.lookup ("title") <;> cases h2 : fields.lookup ("severity") <;>
      simp [Json.index, h1, h2, h]
  · cases h1 : fields.lookup ("title") <;> cases h2 : fields.lookup ("severity") <;>
      cases h3 : fields.lookup ("affected_components") <;>
      simp [Json.index, h1, h2, h3, h]
  · cases h1 : fields.lookup ("title") <;> cases h2 : fields.lookup ("severity") <;>
      cases h3 : fields.lookup ("affected_components") <;>
      cases h4 : fields.lookup ("reproduction_steps") <;>
      simp [Json.index, h1, h2, h3, h4, h]
  · cases h1 : fields.lookup ("title") <;> cases h2 : fields.lookup ("severity") <;>
      cases h3 : fields.lookup ("affected_components") <;>
      cases h4 : fields.lookup ("reproduction_steps") <;>
      cases h5 : fields.lookup ("priority") <;>
      simp [Json.index, h1, h2, h3, h4, h5, h]

/-- C4: whenever the bug-report extraction response is not valid JSON or
parses to an object missing one of the six required keys, the method
returns the complete fixed fallback ticket (title "Bug Report", severity
"Medium", priority "Medium", team "Support Team", components ["General"],
one placeholder reproduction step) with a non-empty freshly generated id
beginning with "BUG-", and raises no exception. -/
theorem c4_bug_report_fallback (req : CustomerMessageRequest)
    (content : Option Json) (u : String) (h : bugExtractionMalformed content) :
    ∃ tkt : TicketModel,
      _generate_bug_report_data req content u = Except.ok { ticket := tkt } ∧
      tkt.title = "Bug Report" ∧ tkt.severity = "Medium" ∧
      tkt.priority = "Medium" ∧ tkt.assigned_team = "Support Team" ∧
      tkt.affected_components = ["General"] ∧
      tkt.reproduction_steps = ["Steps to reproduce not specified"] ∧
      tkt.id ≠ "" ∧ ∃ rest, tkt.id = "BUG-" ++ rest := by
  have hid : ("BUG-" ++ pyUpper (pySlice u 4)) ≠ ("" : String) := by
    intro he
    have hd := congrArg String.data he
    rw [String.data_append] at hd
    exact absurd (List.append_eq_nil.mp hd).1 (by decide)
  rcases h with hnone | ⟨fields, hc, hk⟩
  · subst hnone
    exact ⟨(fallbackTicket u).ticket, rfl, rfl, rfl, rfl, rfl, rfl, rfl, hid,
      ⟨pyUpper (pySlice u 4), rfl⟩⟩
  · subst hc
    have hb := bugBody_missing_key u fields hk
    refine ⟨(fallbackTicket u).ticket, ?_, rfl, rfl, rfl, rfl, rfl, rfl, hid,
      ⟨pyUpper (pySlice u 4), rfl⟩⟩
    simp [_generate_bug_report_data, tryParse, hb, caughtByParseFallback]

/-- Witness for C4 at a concrete malformed (non-JSON) extraction response. -/
theorem c4_bug_report_fallback_witness :
    ∃ tkt : TicketModel,
      _generate_bug_report_data
          { customer_id := "c4", message := "it crashes", product := "App" }
          none ("1a2b") = Except.ok { ticket := tkt } ∧
      tkt.title = "Bug Report" ∧ tkt.severity = "Medium" ∧
      tkt.priority = "Medium" ∧ tkt.assigned_team = "Support Team" ∧
      tkt.affected_components = ["General"] ∧
      tkt.reproduction_steps = ["Steps to reproduce not specified"] ∧
      tkt.id ≠ "" ∧ ∃ rest, tkt.id = "BUG-" ++ rest :=
  c4_bug_report_fallback
    { customer_id := "c4", message := "it crashes", product := "App" }
    none ("1a2b") (Or.inl rfl)

theorem featureBody_fields (u : String) (j : Json) (m : ProductRequirementResponse)
    (h : featureBody u j = Except.ok m) :
    m.product_requirement.status = "Under Review" ∧
    ∃ rest, m.product_requirement.id = "FR-" ++ rest := by
  unfold featureBody at h
  repeat
    first
      | exact Except.noConfusion h
      | split at h
  injection h with h
  subst h
  exact ⟨rfl, ⟨pyUpper (pySlice u 4), rfl⟩⟩

/-- C5: on both the success path and the fallback path, any
`ProductRequirementResponse` returned by the feature-request extractor has
status "Under Review" and an id beginning with "FR-". -/
theorem c5_feature_request_status_and_id (req : CustomerMessageRequest)
    (content : Option Json) (u : String) (r : ProductRequirementResponse)
    (h : _generate_feature_request_data req content u = Except.ok r) :
    r.product_requirement.status = "Under Review" ∧
    ∃ rest, r.product_requirement.id = "FR-" ++ rest := by
  rcases content with _ | j
  · simp only [_generate_feature_request_data, tryParse] at h
    injection h with h
    subst h
    exact ⟨rfl, ⟨pyUpper (pySlice u 4), rfl⟩⟩
  · simp only [_generate_feature_request_data, tryParse] at h
    cases hb : featureBody u j with
    | ok x =>
      rw [hb] at h
      injection h with h
      subst h
      exact featureBody_fields u j x hb
    | error e =>
      rw [hb] at h
      cases e <;> simp only [caughtByParseFallback] at h <;> simp at h
      case keyError =>
        subst h
        exact ⟨rfl, ⟨pyUpper (pySlice u 4), rfl⟩⟩

/-- Witness for C5 at a concrete malformed (non-JSON) extraction response:
the fallback record satisfies the claim. -/
theorem c5_feature_request_status_and_id_witness :
    (fallbackRequirement ("9z01")).product_requirement.status = "Under Review" ∧
    ∃ rest, (fallbackRequirement ("9z01")).product_requirement.id = "FR-" ++ rest :=
  c5_feature_request_status_and_id
    { customer_id := "c5", message := "please add dark mode", product := "App" }
    none ("9z01") (fallbackRequirement ("9z01")) rfl

/-- C6: any numeric confidence score in the unit interval that the
classifier successfully parses is carried into the envelope unmodified:
no rounding, no clamping. -/
theorem c6_confidence_passthrough (req : CustomerMessageRequest)
    (cc ec : Option Json) (u : String) (mt : MessageType) (v : ℚ)
    (hc : _classify_message_type cc = Except.ok (mt, Json.num v))
    (h0 : 0 ≤ v) (h1 : v ≤ 1)
    (r : MainResponse)
    (h : classify_and_generate_response req cc ec u = Except.ok r) :
    r.confidence_score = Json.num v := by
  simp only [classify_and_generate_response, hc] at h
  cases h2 : _generate_response_data req mt ec u with
  | error e => simp only [h2] at h; exact Except.noConfusion h
  | ok rd =>
    simp only [h2] at h
    cases h3 : _generate_customer_response req mt rd with
    | error e => simp only [h3] at h; exact Except.noConfusion h
    | ok cr =>
      simp only [h3] at h
      injection h with h
      subst h
      rfl

/-- Witness for C6 at the edge value 1.0, on the bug-report path with a
fallback ticket. -/
theorem c6_confidence_passthrough_witness :
    ({ message_type := MessageType.bug_report,
       confidence_score := Json.num 1,
       response_data := ResponseData.ticketResp (fallbackTicket ("ab12")),
       customer_response := "Thank you for reporting this issue. I\x27ve created a ticket (ID: BUG-AB12) and assigned it to our Support Team team. They\x27ll investigate this medium priority issue and get back to you soon. We appreciate you helping us improve our product!" }
      : MainResponse).confidence_score = Json.num 1 :=
  c6_confidence_passthrough
    { customer_id := "c6", message := "it crashes", product := "Editor" }
    (some (Json.obj [("classification", Json.str ("bug_report")),
      ("confidence_score", Json.num 1)]))
    none ("ab12") MessageType.bug_report 1 rfl (by decide) (by decide) _ rfl

/-- Counterexample to C7: the classifier passes the parsed
`confidence_score` through without clamping, so a completion response
carrying 2.0 produces an envelope whose confidence score is outside the
unit interval. -/
theorem c7_confidence_unit_counterexample :
    ∃ r : MainResponse,
      classify_and_generate_response
          { customer_id := "c7", message := "it crashes", product := "Editor" }
          (some (Json.obj [("classification", Json.str ("bug_report")),
            ("confidence_score", Json.num 2)]))
          none ("cd34") = Except.ok r ∧
      r.confidence_score = Json.num 2 ∧ ¬ confidenceInUnit r := by
  refine ⟨{ message_type := MessageType.bug_report,
            confidence_score := Json.num 2,
            response_data := ResponseData.ticketResp (fallbackTicket ("cd34")),
            customer_response := "Thank you for reporting this issue. I\x27ve created a ticket (ID: BUG-CD34) and assigned it to our Support Team team. They\x27ll investigate this medium priority issue and get back to you soon. We appreciate you helping us improve our product!" },
    rfl, rfl, ?_⟩
  rintro ⟨q, hq, h0, h1⟩
  injection hq with hq
  subst hq
  exact absurd h1 (by norm_num)

/-- C7 amended: the envelope's confidence score lies in the unit interval
provided the classifier either falls back (score 0.5) or parses a numeric
score already in the unit interval; an out-of-range parsed value is passed
through unchanged, so the unconditional invariant fails. -/
theorem c7_confidence_unit_amended (req : CustomerMessageRequest)
    (cc ec : Option Json) (u : String) (r : MainResponse)
    (hadm : classifierConfidenceAdmissible cc)
    (h : classify_and_generate_response req cc ec u = Except.ok r) :
    confidenceInUnit r := by
  cases h1 : _classify_message_type cc with
  | error e =>
    simp only [classify_and_generate_response, h1] at h
    exact Except.noConfusion h
  | ok p =>
    obtain ⟨mt, s⟩ := p
    obtain ⟨v, hs, h0, hv⟩ := hadm mt s h1
    subst hs
    simp only [classify_and_generate_response, h1] at h
    cases h2 : _generate_response_data req mt ec u with
    | error e => simp only [h2] at h; exact Except.noConfusion h
    | ok rd =>
      simp only [h2] at h
      cases h3 : _generate_customer_response req mt rd with
      | error e => simp only [h3] at h; exact Except.noConfusion h
      | ok cr =>
        simp only [h3] at h
        injection h with h
        subst h
        exact ⟨v, rfl, h0, hv⟩

/-- Witness for the amended C7 on the classifier fallback path. -/
theorem c7_confidence_unit_amended_witness :
    confidenceInUnit
      { message_type := MessageType.general_inquiry,
        confidence_score := Json.num (0.5 : ℚ),
        response_data := ResponseData.inquiryResp fallbackInquiry,
        customer_response := "Thank you for your inquiry about Editor. This requires personal attention, so I\x27ve escalated it to our support team. They\x27ll get back to you within 24 hours. In the meantime, you might find these resources helpful: Help Center." } :=
  c7_confidence_unit_amended
    { customer_id := "c7w", message := "how do I export", product := "Editor" }
    none none ("ef56") _
    (by
      intro mt s hms
      injection hms with hp
      injection hp with hmt hs
      exact ⟨0.5, hs.symm, by norm_num, by norm_num⟩)
    rfl

/-- C10: a valid general-inquiry extraction object with a recognized
category and a review flag but no "suggested_resources" key succeeds with
an empty resource list: the missing key does not trigger the fallback and
no "Help Center" entry is substituted. -/
theorem c10_missing_resources_key (req : CustomerMessageRequest)
    (fields : List (String × Json)) (catV : Json) (c : InquiryCategory) (b : Bool)
    (hres : fields.lookup ("suggested_resources") = none)
    (hcat : fields.lookup ("category") = some catV)
    (hc : InquiryCategory.ofValue catV = Except.ok c)
    (hrev : fields.lookup ("requires_human_review") = some (Json.bool b)) :
    _generate_general_inquiry_data req (some (Json.obj fields))
      = Except.ok { inquiry_category := c, requires_human_review := b,
                    suggested_resources := [] } := by
  simp [_generate_general_inquiry_data, tryParse, inquiryBody, Json.get,
    Json.index, hres, hcat, hc, hrev, readResources, readResourceList,
    Json.asBool]

/-- Witness for C10 at a concrete two-key response object. -/
theorem c10_missing_resources_key_witness :
    _generate_general_inquiry_data
        { customer_id := "c10", message := "billing question", product := "App" }
        (some (Json.obj [("category", Json.str ("Billing")),
          ("requires_human_review", Json.bool false)]))
      = Except.ok { inquiry_category := InquiryCategory.billing,
                    requires_human_review := false, suggested_resources := [] } :=
  c10_missing_resources_key
    { customer_id := "c10", message := "billing question", product := "App" }
    [("category", Json.str ("Billing")), ("requires_human_review", Json.bool false)]
    (Json.str ("Billing")) InquiryCategory.billing false rfl rfl rfl rfl
